import Mathlib

/-!
Shallow embedding of the session / wire-protocol layer of the
homebridge-casambi plugin (src/casambi.ts, src/platform.ts,
src/luminaire.ts) and proofs about the properties claimed of it.

Conventions used throughout:
* JavaScript numbers that only ever hold small non-negative integers
  (wire ids, unit ids, HTTP status codes, millisecond timestamps) are
  modelled as Nat.
* JavaScript numbers used for fractional arithmetic (dimmer levels,
  Kelvin and mired values) are modelled as Rat; the code never relies
  on binary-float rounding, so exact rational arithmetic is the
  faithful idealisation.
* JSON.parse is a platform primitive; it is modelled by the Option of
  its result: some m for a well-formed payload that decodes to m, and
  none for a malformed payload, in which case JSON.parse throws.  A
  handler that lets that exception escape is modelled as returning
  Except.error.
* Promise code is modelled by splitting each async operation into its
  synchronous start step and its completion step, and by running the
  steps of concurrent callers in an explicit interleaving.
-/

/-! ## Constants (src/casambi.ts, src/platform.ts, src/luminaire.ts) -/

/-- Constant MAX_WIRE_ID from src/casambi.ts. -/
def MAX_WIRE_ID : Nat := 99

/-- Constant PING_INTERVAL (ms) from src/casambi.ts. -/
def PING_INTERVAL : Nat := 30000

/-- Constant PONG_TIMEOUT (ms) from src/casambi.ts: PING_INTERVAL + 2000. -/
def PONG_TIMEOUT : Nat := PING_INTERVAL + 2000

/-- Constant SESSION_RETRY_DELAY (ms) from src/platform.ts: delay after a
failed login before it is retried. -/
def SESSION_RETRY_DELAY : Nat := 30000

/-- Constant CONNECTION_RETRY_DELAY (ms) from src/platform.ts: delay after
the connection closes before a re-connect attempt. -/
def CONNECTION_RETRY_DELAY : Nat := 5000

/-- Constant UNITCHANGED_DELAY (ms) from src/luminaire.ts: debounce window
for inbound unitChanged notifications. -/
def UNITCHANGED_DELAY : Nat := 500

/-! ## Outbound frames (CasambiConnection, src/casambi.ts) -/

/-- The open-handshake frame built by CasambiConnection.openWire:
`{method: "open", id: networkId, session: sessionId, ref, wire, type: 1}`.
The ref token (Math.random().toString(36)) is modelled as a Nat chosen by
the caller; only its identity matters. -/
structure OpenFrame where
  networkId : String
  sessionId : String
  ref : Nat
  wire : Nat
deriving DecidableEq, Repr

/-- The targetControls object sent in a controlUnit frame
(src/luminaire.ts builds these; src/casambi.ts forwards them verbatim). -/
structure TargetControls where
  dimmerValue : Option Rat := none
  colorTemperatureValue : Option Rat := none
  colorsource : Option String := none
  verticalValue : Option Rat := none
  onOffValue : Option Rat := none
deriving DecidableEq, Repr

/-- A frame sent on the WebSocket by CasambiConnection
(openWire / sendControlUnit / closeWire). -/
inductive Frame where
  | openMsg (f : OpenFrame)
  | controlUnit (wire : Nat) (unitId : Nat) (targetControls : TargetControls)
  | closeMsg (wire : Nat)
deriving DecidableEq, Repr

/-! ## Connection state (CasambiConnection, src/casambi.ts) -/

/-- The part of CasambiConnection state that the wire-open and send paths
read and write: the nextWireId counter and the ordered list of frames
handed to ws.send. -/
structure ConnectionState where
  nextWireId : Nat
  sentFrames : List Frame
deriving DecidableEq, Repr

/-- CasambiConnection.newWireId:
`const wireId = this.nextWireId; this.nextWireId = wireId % MAX_WIRE_ID + 1; return wireId;` -/
def newWireId (c : ConnectionState) : Nat × ConnectionState :=
  (c.nextWireId, { c with nextWireId := c.nextWireId % MAX_WIRE_ID + 1 })

/-- The synchronous part of CasambiConnection.openWire: build the open
message (allocating a fresh wire id) and send it.  The socket-connect
step (this.open()) is not modelled separately; we consider runs in which
the socket connects, so the built frame is always sent. -/
def connectionOpenWire (networkId sessionId : String) (ref : Nat)
    (c : ConnectionState) : OpenFrame × ConnectionState :=
  let (wireId, c1) := newWireId c
  let frame : OpenFrame :=
    { networkId := networkId, sessionId := sessionId, ref := ref, wire := wireId }
  (frame, { c1 with sentFrames := c1.sentFrames ++ [Frame.openMsg frame] })

/-- CasambiConnection.sendControlUnit: sends
`{method: "controlUnit", wire, id: unitId, targetControls}`. -/
def connectionSendControlUnit (wireId unitId : Nat) (tc : TargetControls)
    (c : ConnectionState) : ConnectionState :=
  { c with sentFrames := c.sentFrames ++ [Frame.controlUnit wireId unitId tc] }

/-- The messageHandler installed by CasambiConnection.openWire: a reply
with a wireStatus field and a matching ref resolves the promise with the
open frame wire id on "openWireSucceed" and rejects it with the status
string otherwise; replies with other refs are ignored. -/
def openWireReplyResolve (f : OpenFrame) (replyRef : Nat) (status : String) :
    Option (Except String Nat) :=
  if replyRef = f.ref then
    some (if status = "openWireSucceed" then Except.ok f.wire else Except.error status)
  else
    none

/-! ## Session state (CasambiNetworkSession, src/casambi.ts) -/

/-- The mutable state of a CasambiNetworkSession relevant to wire
handling: the memoized wire id (0 = not open). -/
structure SessionState where
  wireId : Nat
deriving DecidableEq, Repr

/-- Result of the synchronous start of CasambiNetworkSession.openWire:
either the memoized wire is already open (Promise.resolve()) or a
handshake was initiated on the connection with the recorded frame. -/
inductive OpenStart where
  | alreadyOpen
  | initiated (f : OpenFrame)
deriving DecidableEq, Repr

/-- The synchronous start of CasambiNetworkSession.openWire:
`if (this.wireId > 0) return Promise.resolve();
 return this.api.connection.openWire(this.networkInfo.id, this.sessionId).then(...)`.
The wire-id check and the frame construction both happen synchronously in
the calling turn, before any completion handler can run. -/
def sessionOpenWireStart (s : SessionState) (networkId sessionId : String)
    (ref : Nat) (c : ConnectionState) : OpenStart × ConnectionState :=
  if s.wireId > 0 then
    (OpenStart.alreadyOpen, c)
  else
    let (frame, c1) := connectionOpenWire networkId sessionId ref c
    (OpenStart.initiated frame, c1)

/-- The completion handler of CasambiNetworkSession.openWire on success:
`this.wireId = wireId; this.emit("wireOpen");` -/
def sessionOpenWireComplete (s : SessionState) (assignedWire : Nat) : SessionState :=
  { s with wireId := assignedWire }

/-- The close handler CasambiNetworkSession.onConnectionClose:
`this.wireId = 0;` -/
def sessionOnConnectionClose (s : SessionState) : SessionState :=
  { s with wireId := 0 }

/-- CasambiNetworkSession.sendControlUnit on the success path, run
sequentially (no interleaved callers):
`return this.openWire().then(() => this.api.connection.sendControlUnit(this.wireId, unitId, targetControls));`
If the start initiated a handshake, the server reply "openWireSucceed"
completes it (assigning the wire id of the frame that was sent) before
the controlUnit frame is sent with the memoized wire id. -/
def sessionSendControlUnit (s : SessionState) (networkId sessionId : String)
    (ref : Nat) (unitId : Nat) (tc : TargetControls) (c : ConnectionState) :
    SessionState × ConnectionState :=
  match sessionOpenWireStart s networkId sessionId ref c with
  | (OpenStart.alreadyOpen, c1) =>
      (s, connectionSendControlUnit s.wireId unitId tc c1)
  | (OpenStart.initiated frame, c1) =>
      let s1 := sessionOpenWireComplete s frame.wire
      (s1, connectionSendControlUnit s1.wireId unitId tc c1)

/-! ## Concurrent openWire interleaving (for the in-flight-open property)

Each concurrent caller of CasambiNetworkSession.openWire runs its
synchronous start step (the `this.wireId > 0` check plus, when that check
fails, CasambiConnection.openWire building and sending a fresh open
frame) before any completion handler runs, because completions are
promise callbacks queued behind the current turn.  `runConcurrentOpens`
executes the start steps of the callers in order, one ref token per
caller, against the single shared session and connection state. -/

def runConcurrentOpens (networkId sessionId : String) (s : SessionState) :
    List Nat → ConnectionState → List OpenStart × ConnectionState
  | [], c => ([], c)
  | ref :: refs, c =>
      let (st, c1) := sessionOpenWireStart s networkId sessionId ref c
      let (sts, c2) := runConcurrentOpens networkId sessionId s refs c1
      (st :: sts, c2)

/-- The open frames that a run of concurrent openWire callers with the
given ref tokens sends, starting from wire-id counter w: one frame per
caller, wire ids advancing through `w % MAX_WIRE_ID + 1`. -/
def framesForRefs (networkId sessionId : String) :
    List Nat → Nat → List OpenFrame
  | [], _ => []
  | ref :: refs, w =>
      { networkId := networkId, sessionId := sessionId, ref := ref, wire := w } ::
        framesForRefs networkId sessionId refs (w % MAX_WIRE_ID + 1)

/-- The value of the nextWireId counter after n allocations starting
from w. -/
def wireAfter : Nat → Nat → Nat
  | 0, w => w
  | n + 1, w => wireAfter n (w % MAX_WIRE_ID + 1)

/-! ## Inbound messages and demultiplexing -/

/-- A decoded inbound JSON message as the handlers read it: the fields
`wire`, `method` and `wireStatus` are each optional because a JSON object
may or may not carry them (a missing field reads as undefined, which
compares unequal to every number and fails the `in` test). -/
structure InMessage where
  wire : Option Nat
  method : Option String
  wireStatus : Option String
deriving DecidableEq, Repr

/-- A JavaScript exception escaping an inbound-data handler.  The only
one the handler body can raise is the SyntaxError thrown by JSON.parse
on a malformed payload. -/
inductive JsError where
  | jsonSyntaxError
deriving DecidableEq, Repr

/-- CasambiConnection.onMessage (private handler for ws "message"):
`this.emit("message", JSON.parse(data));`
The input is the JSON.parse outcome of the payload (none = malformed).
The result is the pair of (the emitted message events, or the escaping
exception) and the log lines the handler writes (there are none: the
source has no try/catch and no logging around JSON.parse). -/
def connectionOnMessage (parsed : Option InMessage) :
    Except JsError (List InMessage) × List String :=
  match parsed with
  | some m => (Except.ok [m], [])
  | none => (Except.error JsError.jsonSyntaxError, [])

/-- An event a CasambiNetworkSession emits to its subscribers from its
onMessage handler. -/
inductive SessionEvent where
  | unitChanged (m : InMessage)
  | peerChanged (m : InMessage)
  | networkUpdated (m : InMessage)
  | wireStatus (s : String)
deriving DecidableEq, Repr

/-- The switch over message.method inside
CasambiNetworkSession.onMessage: only the three listed method values are
re-emitted; every other method (or a missing one) falls through the
switch and emits nothing. -/
def changeEventsOf (m : InMessage) : List SessionEvent :=
  if m.method = some "unitChanged" then [SessionEvent.unitChanged m]
  else if m.method = some "peerChanged" then [SessionEvent.peerChanged m]
  else if m.method = some "networkUpdated" then [SessionEvent.networkUpdated m]
  else []

/-- CasambiNetworkSession.onMessage (handler for connection "message"):
`if (message.wire === this.wireId) { switch (message.method) {...}
 if ("wireStatus" in message) this.emit("wireStatus", message.wireStatus); }`
Returns the list of events emitted to the subscribers of this session. -/
def sessionOnMessage (wireId : Nat) (m : InMessage) : List SessionEvent :=
  if m.wire = some wireId then
    changeEventsOf m ++
      (match m.wireStatus with
       | some s => [SessionEvent.wireStatus s]
       | none => [])
  else []

/-- Whether the session re-emits the message as one of the three change
events (unitChanged, peerChanged, networkUpdated). -/
def emitsChangeEvent (wireId : Nat) (m : InMessage) : Bool :=
  (sessionOnMessage wireId m).any fun e =>
    match e with
    | SessionEvent.wireStatus _ => false
    | _ => true

/-! ## Login failure handling (CasambiPlatform.discoverDevices, src/platform.ts) -/

/-- The response attached to an axios request error, when the server
answered at all. -/
structure HttpErrorResponse where
  status : Nat
deriving DecidableEq, Repr

/-- An error caught by the login try block of
CasambiPlatform.discoverDevices: `error.response` is absent for network
errors and present (with a status) when the server answered. -/
structure RequestError where
  response : Option HttpErrorResponse
  msg : String
deriving DecidableEq, Repr

/-- What the catch block schedules.  `fatal` is the 401 branch: log
"wrong credentials" and return with nothing scheduled.  `retryLogin` is
the other branch: `setTimeout(() => this.discoverDevices(config), SESSION_RETRY_DELAY)`,
carrying the unchanged config. -/
inductive LoginFailureAction (Cfg : Type) where
  | fatal
  | retryLogin (delayMs : Nat) (cfg : Cfg)
deriving DecidableEq, Repr

/-- The condition `error.response && error.response.status === 401`. -/
def isCredentialRejection (e : RequestError) : Bool :=
  match e.response with
  | some r => r.status == 401
  | none => false

/-- The catch block of CasambiPlatform.discoverDevices. -/
def discoverDevicesCatch {Cfg : Type} (cfg : Cfg) (e : RequestError) :
    LoginFailureAction Cfg :=
  if isCredentialRejection e then
    LoginFailureAction.fatal
  else
    LoginFailureAction.retryLogin SESSION_RETRY_DELAY cfg

/-- The retries a LoginFailureAction schedules, as (delay, config) pairs. -/
def scheduledRetries {Cfg : Type} : LoginFailureAction Cfg → List (Nat × Cfg)
  | LoginFailureAction.fatal => []
  | LoginFailureAction.retryLogin d cfg => [(d, cfg)]

/-! ## Liveness watchdog and reconnect (src/casambi.ts onPong/onClose,
src/platform.ts onConnectionClose)

Timers are modelled by absolute fire times: a setTimeout armed at time t
with delay d fires at t + d unless cleared first. -/

/-- A timed observable event of the connection lifecycle. -/
inductive WsEvent where
  | timeout
  | close
  | connectAttempt
deriving DecidableEq, Repr

/-- CasambiPlatform.onConnectionClose (handler for connection "close"):
`setTimeout(this.connect.bind(this), CONNECTION_RETRY_DELAY);`
It runs for every close event and schedules exactly one connect attempt
a fixed CONNECTION_RETRY_DELAY later; it keeps no retry counter, so the
delay never grows and no attempt is ever the last. -/
def platformOnConnectionClose (t : Nat) : List (Nat × WsEvent) :=
  [(t + CONNECTION_RETRY_DELAY, WsEvent.connectAttempt)]

/-- CasambiConnection.onClose (handler for ws "close") at time t: clears
the keepalive timers, drops the socket and emits "close", which the
platform handler above receives. -/
def connectionCloseEvents (t : Nat) : List (Nat × WsEvent) :=
  (t, WsEvent.close) :: platformOnConnectionClose t

/-- The callback of the pong watchdog armed by CasambiConnection.onPong:
`this.emit("timeout"); this.ws.terminate();`
ws.terminate() forcibly closes the transport, so the ws "close" event
(handled by connectionCloseEvents) follows at the same instant. -/
def pongTimeoutCallback (t : Nat) : List (Nat × WsEvent) :=
  (t, WsEvent.timeout) :: connectionCloseEvents t

/-- The absolute fire time of the watchdog armed by
CasambiConnection.onPong at time tp:
`this.pongTimeout = setTimeout(..., PONG_TIMEOUT);` -/
def pongDeadline (tp : Nat) : Nat := tp + PONG_TIMEOUT

/-- The timed events produced by the watchdog armed at the liveness
acknowledgment received at time tp, given the arrival time of the next
pong (none = no further pong ever arrives).  A pong arriving before the
deadline clears the timer via clearTimeout in onPong (that pong then
becomes the new last acknowledgment, re-arming a new watchdog outside
this window); otherwise the timer fires at the deadline. -/
def livenessTrace (tp : Nat) (nextPong : Option Nat) : List (Nat × WsEvent) :=
  match nextPong with
  | some t => if t < pongDeadline tp then [] else pongTimeoutCallback (pongDeadline tp)
  | none => pongTimeoutCallback (pongDeadline tp)

/-! ## Accessory characteristic updates (LuminaireAccessory, src/luminaire.ts) -/

/-- An entry of the controls array of a unitChanged message.  The source
lowercases the type string before the switch; the field here holds the
already-lowercased value.  min and max are only read in the cct case. -/
structure ControlInfo where
  type : String
  value : Rat
  min : Rat
  max : Rat
deriving DecidableEq, Repr

/-- The externally visible characteristics of a LuminaireAccessory plus
its stored fields (this.brightness, this.minCCT, this.maxCCT) and
whether the optional vertical Lightbulb service exists. -/
structure AccessoryState where
  onChar : Bool
  brightnessChar : Rat
  brightness : Rat
  colorTemperatureChar : Rat
  verticalOnChar : Bool
  verticalBrightnessChar : Rat
  minCCT : Rat
  maxCCT : Rat
  hasVerticalService : Bool
deriving DecidableEq, Repr

/-- One iteration of the controls loop in
LuminaireAccessory.updateCharacteristicsFromUnitChanged:
dimmer: `brightness = value * 100; updateCharacteristic(On, brightness > 0);
         if (brightness > 0) { updateCharacteristic(Brightness, brightness); this.brightness = brightness; }`
onoff: `updateCharacteristic(On, value > 0);`
vertical: mirror the main On state onto the vertical service and, when
          on, set its Brightness to `(1 - value) * 100`;
cct: `this.minCCT = min; this.maxCCT = max; updateCharacteristic(ColorTemperature, 1e6 / value);`
any other type: log a debug line and change nothing. -/
def applyControlInfo (st : AccessoryState) (ci : ControlInfo) : AccessoryState :=
  if ci.type = "dimmer" then
    let brightness := ci.value * 100
    let st1 := { st with onChar := decide (brightness > 0) }
    if brightness > 0 then
      { st1 with brightnessChar := brightness, brightness := brightness }
    else st1
  else if ci.type = "onoff" then
    { st with onChar := decide (ci.value > 0) }
  else if ci.type = "vertical" then
    if st.hasVerticalService then
      let st1 := { st with verticalOnChar := st.onChar }
      if st.onChar then
        { st1 with verticalBrightnessChar := (1 - ci.value) * 100 }
      else st1
    else st
  else if ci.type = "cct" then
    { st with minCCT := ci.min, maxCCT := ci.max,
              colorTemperatureChar := 1000000 / ci.value }
  else st

/-- LuminaireAccessory.updateCharacteristicsFromUnitChanged: the controls
loop applied in order. -/
def updateCharacteristicsFromUnitChanged (st : AccessoryState)
    (controls : List ControlInfo) : AccessoryState :=
  controls.foldl applyControlInfo st

/-- LuminaireAccessory.setColorTemperature builds the targetControls
`{ColorTemperature: {value: Math.min(Math.max(1e6 / value, this.minCCT), this.maxCCT)}, Colorsource: {source: "TW"}}`
for the mired set-request value. -/
def setColorTemperatureControls (minCCT maxCCT value : Rat) : TargetControls :=
  { colorTemperatureValue := some (min (max (1000000 / value) minCCT) maxCCT),
    colorsource := some "TW" }

/-- Clamping as the specification words it: the value 1e6/m forced into
the closed interval between the fixture bounds.  Stated from the spec
text to compare against the expression the source computes. -/
def clampedInto (lo hi x : Rat) : Rat :=
  if x ≤ lo then lo else if hi ≤ x then hi else x

/-! ## Debounce of inbound unitChanged pushes (LuminaireAccessory, src/luminaire.ts) -/

/-- A unitChanged message as the debounce path stores it: the unit id it
is addressed to and its controls payload. -/
structure UnitChangedMessage where
  id : Nat
  controls : List ControlInfo
deriving DecidableEq, Repr

/-- The debounce state: the pending timer of
LuminaireAccessory.onUnitChanged as (absolute fire time, message queued
for application), or none when no timer is pending. -/
abbrev DebounceState := Option (Nat × UnitChangedMessage)

/-- LuminaireAccessory.onUnitChanged at time now:
`if (message.id === this.unitId) { if (this.unitChangedTimeout) clearTimeout(this.unitChangedTimeout);
 this.unitChangedTimeout = setTimeout(() => updateCharacteristicsFromUnitChanged(message), UNITCHANGED_DELAY); }`
A matching push replaces whatever timer is pending with a fresh one
holding this message; a push for another unit changes nothing. -/
def onUnitChanged (unitId : Nat) (now : Nat) (msg : UnitChangedMessage)
    (st : DebounceState) : DebounceState :=
  if msg.id = unitId then some (now + UNITCHANGED_DELAY, msg) else st

/-- Event-loop run of the debounce against pushes listed in time order:
before each push is handled, a pending timer whose fire time has already
passed fires (applying its message as the externally visible update);
after the last push, a still-pending timer fires.  Returns the
externally visible updates as (time, message) pairs. -/
def runDebounce (unitId : Nat) :
    List (Nat × UnitChangedMessage) → DebounceState → List (Nat × UnitChangedMessage)
  | [], st =>
      match st with
      | some (d, m) => [(d, m)]
      | none => []
  | (t, msg) :: rest, st =>
      match st with
      | some (d, m) =>
          if d ≤ t then
            (d, m) :: runDebounce unitId rest (onUnitChanged unitId t msg none)
          else
            runDebounce unitId rest (onUnitChanged unitId t msg (some (d, m)))
      | none => runDebounce unitId rest (onUnitChanged unitId t msg none)

/-! ## The once-only set-request callback (LuminaireAccessory.sendControlUnit) -/

/-- The guarded callback of LuminaireAccessory.sendControlUnit:
`let called = false;
 const onceCallback = (result) => { if (!called) { called = true; callback(result); } };`
Given the sequence of invocations of onceCallback (first argument: the
current value of the called flag), returns the arguments actually
forwarded to the HomeKit callback. -/
def onceCallbackRun {R : Type} : Bool → List R → List R
  | _, [] => []
  | true, _ :: rest => onceCallbackRun true rest
  | false, r :: rest => r :: onceCallbackRun true rest

/-- A settlement signal reaching the handlers attached by
`this.session.sendControlUnit(...).then(() => onceCallback(null)).catch(err => onceCallback(err))`:
fulfillment invokes onceCallback with null, rejection with the error. -/
inductive PromiseSignal (E : Type) where
  | fulfilled
  | rejected (e : E)

/-- The onceCallback invocations the attached handlers make for a given
sequence of settlement signals (one signal for a well-behaved promise;
more than one on a pathological path where both handlers fire). -/
def handlerCalls {E : Type} (signals : List (PromiseSignal E)) : List (Option E) :=
  signals.map fun s =>
    match s with
    | PromiseSignal.fulfilled => none
    | PromiseSignal.rejected e => some e

/-! # Theorems -/

/-! ## Helper lemmas -/

/-- Closed form of a run of concurrent openWire start steps on a session
whose wire id is unassigned: every caller initiates its own handshake,
and the frames sent are exactly framesForRefs. -/
theorem runConcurrentOpens_unopened (networkId sessionId : String) :
    ∀ (refs : List Nat) (c : ConnectionState),
      runConcurrentOpens networkId sessionId { wireId := 0 } refs c =
        ((framesForRefs networkId sessionId refs c.nextWireId).map OpenStart.initiated,
         { nextWireId := wireAfter refs.length c.nextWireId,
           sentFrames := c.sentFrames ++
             (framesForRefs networkId sessionId refs c.nextWireId).map Frame.openMsg }) := by
  intro refs
  induction refs with
  | nil =>
      intro c
      simp [runConcurrentOpens, framesForRefs, wireAfter]
  | cons ref refs ih =>
      intro c
      have hstart :
          sessionOpenWireStart { wireId := 0 } networkId sessionId ref c =
            (OpenStart.initiated
              { networkId := networkId, sessionId := sessionId, ref := ref,
                wire := c.nextWireId },
             { nextWireId := c.nextWireId % MAX_WIRE_ID + 1,
               sentFrames := c.sentFrames ++
                 [Frame.openMsg
                   { networkId := networkId, sessionId := sessionId, ref := ref,
                     wire := c.nextWireId }] }) := by
        simp [sessionOpenWireStart, connectionOpenWire, newWireId]
      simp only [runConcurrentOpens, hstart]
      rw [ih]
      simp [framesForRefs, wireAfter, List.append_assoc]

/-- framesForRefs builds one frame per ref token. -/
theorem framesForRefs_length (networkId sessionId : String) :
    ∀ (refs : List Nat) (w : Nat),
      (framesForRefs networkId sessionId refs w).length = refs.length := by
  intro refs
  induction refs with
  | nil => intro w; simp [framesForRefs]
  | cons ref refs ih => intro w; simp [framesForRefs, ih]

/-- The guarded callback forwards exactly the first invocation when the
flag starts false, and nothing once the flag is set. -/
theorem onceCallbackRun_take {R : Type} :
    ∀ rs : List R, onceCallbackRun false rs = rs.take 1 ∧
      onceCallbackRun true rs = [] := by
  have htrue : ∀ rs : List R, onceCallbackRun true rs = [] := by
    intro rs
    induction rs with
    | nil => rfl
    | cons r rest ih => simpa [onceCallbackRun] using ih
  intro rs
  refine ⟨?_, htrue rs⟩
  cases rs with
  | nil => rfl
  | cons r rest => simp [onceCallbackRun, htrue rest]

/-- The clamped-into form of the spec agrees with the min/max expression
the source computes, whenever the bounds are ordered. -/
theorem min_max_eq_clampedInto (lo hi x : Rat) (h : lo ≤ hi) :
    min (max x lo) hi = clampedInto lo hi x := by
  unfold clampedInto
  split_ifs with h1 h2
  · rw [max_eq_right h1, min_eq_left h]
  · rw [max_eq_left (le_of_lt (not_le.mp h1)), min_eq_right h2]
  · rw [max_eq_left (le_of_lt (not_le.mp h1)),
        min_eq_left (le_of_lt (not_le.mp h2))]

/-- clampedInto lands in the interval when the bounds are ordered. -/
theorem clampedInto_mem (lo hi x : Rat) (h : lo ≤ hi) :
    lo ≤ clampedInto lo hi x ∧ clampedInto lo hi x ≤ hi := by
  unfold clampedInto
  split_ifs with h1 h2
  · exact ⟨le_refl lo, h⟩
  · exact ⟨h, le_refl hi⟩
  · exact ⟨le_of_lt (not_le.mp h1), le_of_lt (not_le.mp h2)⟩

/-! ## Claim C1 -/

/-- Claim C1 counterexample: two openWire calls issued concurrently on
the same Session while its wire id is still unassigned send TWO
open-handshake frames on the Connection (not one), and the two callers
resolve with the distinct wire ids 1 and 2 (each with the wire of its
own frame), refuting both the single-frame and the same-wire-id parts of
the claim. -/
theorem openWire_concurrent_two_handshakes :
    (runConcurrentOpens "net" "sess" { wireId := 0 } [10, 11]
        { nextWireId := 1, sentFrames := [] }).2.sentFrames =
      [Frame.openMsg { networkId := "net", sessionId := "sess", ref := 10, wire := 1 },
       Frame.openMsg { networkId := "net", sessionId := "sess", ref := 11, wire := 2 }] ∧
    (runConcurrentOpens "net" "sess" { wireId := 0 } [10, 11]
        { nextWireId := 1, sentFrames := [] }).2.sentFrames.length ≠ 1 ∧
    openWireReplyResolve { networkId := "net", sessionId := "sess", ref := 10, wire := 1 }
        10 "openWireSucceed" = some (Except.ok 1) ∧
    openWireReplyResolve { networkId := "net", sessionId := "sess", ref := 11, wire := 2 }
        11 "openWireSucceed" = some (Except.ok 2) ∧
    (1 : Nat) ≠ 2 := by
  refine ⟨by decide, by decide, rfl, rfl, by decide⟩

/-- Claim C1 (amended): CasambiNetworkSession.openWire has no in-flight
open promise, so every call whose `wireId > 0` check runs while the wire
id is still unassigned initiates its own open handshake: n concurrent
callers send n open-handshake frames, each carrying a freshly allocated
wire id, and a caller whose reply is "openWireSucceed" resolves with the
wire id of its own frame, not with a shared one. -/
theorem openWire_concurrent_one_frame_per_caller
    (networkId sessionId : String) (refs : List Nat) :
    (runConcurrentOpens networkId sessionId { wireId := 0 } refs
        { nextWireId := 1, sentFrames := [] }).2.sentFrames =
      (framesForRefs networkId sessionId refs 1).map Frame.openMsg ∧
    (runConcurrentOpens networkId sessionId { wireId := 0 } refs
        { nextWireId := 1, sentFrames := [] }).1 =
      (framesForRefs networkId sessionId refs 1).map OpenStart.initiated ∧
    (runConcurrentOpens networkId sessionId { wireId := 0 } refs
        { nextWireId := 1, sentFrames := [] }).2.sentFrames.length = refs.length ∧
    ∀ f : OpenFrame,
      openWireReplyResolve f f.ref "openWireSucceed" = some (Except.ok f.wire) := by
  have h := runConcurrentOpens_unopened networkId sessionId refs
    { nextWireId := 1, sentFrames := [] }
  refine ⟨?_, ?_, ?_, ?_⟩
  · rw [h]
    try simp
  · rw [h]
    try simp
  · rw [h]
    simpa using framesForRefs_length networkId sessionId refs 1
  · intro f
    simp [openWireReplyResolve]

/-! ## Claim C2 -/

/-- Claim C2: when the Connection emits close, every Session sharing it
resets its memoized wire id to 0 (onConnectionClose), and a
sendControlUnit on a Session whose wire id is 0 sends exactly one new
open-handshake frame (carrying the freshly allocated wire id) followed
by the controlUnit frame scoped to that same wire id. -/
theorem sendControlUnit_after_close_reopens_once
    (sessions : List SessionState) (s : SessionState)
    (networkId sessionId : String) (ref unitId : Nat)
    (tc : TargetControls) (c : ConnectionState)
    (hs : s.wireId = 0) :
    (∀ s0 ∈ sessions.map sessionOnConnectionClose, s0.wireId = 0) ∧
    (sessionSendControlUnit s networkId sessionId ref unitId tc c).2.sentFrames =
      c.sentFrames ++
        [Frame.openMsg
          { networkId := networkId, sessionId := sessionId, ref := ref,
            wire := c.nextWireId },
         Frame.controlUnit c.nextWireId unitId tc] ∧
    (sessionSendControlUnit s networkId sessionId ref unitId tc c).1.wireId =
      c.nextWireId := by
  refine ⟨?_, ?_, ?_⟩
  · intro s0 hmem
    rcases List.mem_map.mp hmem with ⟨s1, _, rfl⟩
    rfl
  · simp [sessionSendControlUnit, sessionOpenWireStart, connectionOpenWire,
      newWireId, hs, sessionOpenWireComplete, connectionSendControlUnit]
  · simp [sessionSendControlUnit, sessionOpenWireStart, connectionOpenWire,
      newWireId, hs, sessionOpenWireComplete, connectionSendControlUnit]

/-- Witness for claim C2 at a concrete closed Session, a concrete
Connection state and a concrete command. -/
theorem sendControlUnit_after_close_reopens_once_witness :
    ({ wireId := 0 } : SessionState).wireId = 0 ∧
    ((∀ s0 ∈ ([{ wireId := 7 }, { wireId := 3 }] :
        List SessionState).map sessionOnConnectionClose, s0.wireId = 0) ∧
     (sessionSendControlUnit { wireId := 0 } "net" "sess" 42 9
        { dimmerValue := some 1 } { nextWireId := 1, sentFrames := [] }).2.sentFrames =
      ([] : List Frame) ++
        [Frame.openMsg
          { networkId := "net", sessionId := "sess", ref := 42, wire := 1 },
         Frame.controlUnit 1 9 { dimmerValue := some 1 }] ∧
     (sessionSendControlUnit { wireId := 0 } "net" "sess" 42 9
        { dimmerValue := some 1 } { nextWireId := 1, sentFrames := [] }).1.wireId = 1) :=
  ⟨rfl, sendControlUnit_after_close_reopens_once
    [{ wireId := 7 }, { wireId := 3 }] { wireId := 0 } "net" "sess" 42 9
    { dimmerValue := some 1 } { nextWireId := 1, sentFrames := [] } rfl⟩

/-! ## Claim C3 -/

/-- Claim C3 counterexample: a malformed payload (JSON.parse returns no
value and throws) makes CasambiConnection.onMessage raise, with no log
line written: the handler is a bare `this.emit("message", JSON.parse(data))`
with no try/catch, so the SyntaxError escapes instead of being logged
and discarded. -/
theorem onMessage_malformed_raises :
    (connectionOnMessage none).1 = Except.error JsError.jsonSyntaxError ∧
    (connectionOnMessage none).2 = ([] : List String) :=
  ⟨rfl, rfl⟩

/-- Claim C3 (amended): CasambiConnection.onMessage emits every
well-formed payload as a single message event and writes no log line;
on a malformed payload the JSON.parse exception propagates out of the
handler (nothing is logged, nothing is discarded silently, and no event
is delivered to subscribers). -/
theorem onMessage_parse_behavior :
    (∀ m : InMessage, connectionOnMessage (some m) = (Except.ok [m], [])) ∧
    connectionOnMessage none = (Except.error JsError.jsonSyntaxError, []) :=
  ⟨fun _ => rfl, rfl⟩

/-! ## Claim C4 -/

/-- Claim C4: a login failure with an HTTP 401 response (credential
rejection) is fatal: the catch block of CasambiPlatform.discoverDevices
schedules no retry.  Any other login failure schedules exactly one retry
of the same discoverDevices(config) after SESSION_RETRY_DELAY = 30000 ms. -/
theorem login_failure_retry_policy {Cfg : Type} (cfg : Cfg) (e : RequestError) :
    (isCredentialRejection e = true ↔
      ∃ r : HttpErrorResponse, e.response = some r ∧ r.status = 401) ∧
    (isCredentialRejection e = true →
      scheduledRetries (discoverDevicesCatch cfg e) = []) ∧
    (isCredentialRejection e = false →
      scheduledRetries (discoverDevicesCatch cfg e) = [(30000, cfg)]) ∧
    SESSION_RETRY_DELAY = 30000 := by
  refine ⟨?_, ?_, ?_, rfl⟩
  · unfold isCredentialRejection
    cases hr : e.response with
    | none => simp
    | some r => simp
  · intro h
    simp [discoverDevicesCatch, h, scheduledRetries]
  · intro h
    simp [discoverDevicesCatch, h, scheduledRetries, SESSION_RETRY_DELAY]

/-- Witness for claim C4 at two concrete failures: a 401 response (no
retry scheduled) and a network error without a response (one retry after
30000 ms). -/
theorem login_failure_retry_policy_witness :
    (isCredentialRejection { response := some { status := 401 }, msg := "unauthorized" } = true ∧
     scheduledRetries (discoverDevicesCatch (0 : Nat)
       { response := some { status := 401 }, msg := "unauthorized" }) = []) ∧
    (isCredentialRejection { response := none, msg := "ECONNREFUSED" } = false ∧
     scheduledRetries (discoverDevicesCatch (0 : Nat)
       { response := none, msg := "ECONNREFUSED" }) = [(30000, 0)]) :=
  ⟨⟨by decide,
    (login_failure_retry_policy (0 : Nat)
      { response := some { status := 401 }, msg := "unauthorized" }).2.1 (by decide)⟩,
   ⟨by decide,
    (login_failure_retry_policy (0 : Nat)
      { response := none, msg := "ECONNREFUSED" }).2.2.1 (by decide)⟩⟩

/-! ## Claim C5 -/

/-- Claim C5: the watchdog armed at the last liveness acknowledgment tp
fires when no pong arrives within PONG_TIMEOUT = PING_INTERVAL + 2000 =
32000 ms, emitting a timeout event, force-terminating the transport so
a close event follows immediately, and the platform close handler
schedules a connect attempt CONNECTION_RETRY_DELAY = 5000 ms after the
close; that handler runs identically after every close, with no backoff
and no giving up. -/
theorem pong_watchdog_timeout_close_reconnect (tp : Nat) (nextPong : Option Nat)
    (h : ∀ t, nextPong = some t → pongDeadline tp ≤ t) :
    livenessTrace tp nextPong =
      [(tp + 32000, WsEvent.timeout), (tp + 32000, WsEvent.close),
       (tp + 32000 + 5000, WsEvent.connectAttempt)] ∧
    PONG_TIMEOUT = PING_INTERVAL + 2000 ∧
    PONG_TIMEOUT = 32000 ∧
    (∀ tc : Nat, platformOnConnectionClose tc =
      [(tc + CONNECTION_RETRY_DELAY, WsEvent.connectAttempt)]) ∧
    CONNECTION_RETRY_DELAY = 5000 := by
  refine ⟨?_, rfl, rfl, fun _ => rfl, rfl⟩
  cases hn : nextPong with
  | none =>
      simp [livenessTrace, pongTimeoutCallback, connectionCloseEvents,
        platformOnConnectionClose, pongDeadline, PONG_TIMEOUT, PING_INTERVAL,
        CONNECTION_RETRY_DELAY]
  | some t =>
      have ht : ¬ t < pongDeadline tp := not_lt.mpr (h t hn)
      have ht2 : tp + 32000 ≤ t := by
        simpa [pongDeadline, PONG_TIMEOUT, PING_INTERVAL] using h t hn
      simp [livenessTrace, ht, ht2, pongTimeoutCallback, connectionCloseEvents,
        platformOnConnectionClose, pongDeadline, PONG_TIMEOUT, PING_INTERVAL,
        CONNECTION_RETRY_DELAY]

/-- Witness for claim C5: last pong at t = 1000 and no pong ever after:
timeout and close at 33000, connect attempt at 38000. -/
theorem pong_watchdog_timeout_close_reconnect_witness :
    (∀ t : Nat, (none : Option Nat) = some t → pongDeadline 1000 ≤ t) ∧
    livenessTrace 1000 none =
      [(1000 + 32000, WsEvent.timeout), (1000 + 32000, WsEvent.close),
       (1000 + 32000 + 5000, WsEvent.connectAttempt)] :=
  ⟨fun _ h => Option.noConfusion h,
   (pong_watchdog_timeout_close_reconnect 1000 none
     (fun _ h => Option.noConfusion h)).1⟩

/-! ## Claim C6 -/

/-- Claim C6 counterexample: with inbound pushes for one unit at t = 0,
100, 200 and 600 ms, the debounce applies exactly one externally visible
update, but at t = 1100 ms carrying the t = 600 payload — not at t = 700
ms with the t = 200 payload as claimed: the t = 600 push arrives only
400 ms after the t = 200 push, inside the 500 ms window, so it restarts
the timer instead of letting it elapse. -/
theorem debounce_burst_counterexample :
    runDebounce 7
      [(0, { id := 7, controls := [{ type := "dimmer", value := 1, min := 0, max := 0 }] }),
       (100, { id := 7, controls := [{ type := "dimmer", value := 2, min := 0, max := 0 }] }),
       (200, { id := 7, controls := [{ type := "dimmer", value := 3, min := 0, max := 0 }] }),
       (600, { id := 7, controls := [{ type := "dimmer", value := 4, min := 0, max := 0 }] })]
      none =
      [(1100, { id := 7, controls := [{ type := "dimmer", value := 4, min := 0, max := 0 }] })] ∧
    (700, ({ id := 7, controls := [{ type := "dimmer", value := 3, min := 0, max := 0 }] } :
        UnitChangedMessage)) ∉
      runDebounce 7
        [(0, { id := 7, controls := [{ type := "dimmer", value := 1, min := 0, max := 0 }] }),
         (100, { id := 7, controls := [{ type := "dimmer", value := 2, min := 0, max := 0 }] }),
         (200, { id := 7, controls := [{ type := "dimmer", value := 3, min := 0, max := 0 }] }),
         (600, { id := 7, controls := [{ type := "dimmer", value := 4, min := 0, max := 0 }] })]
        none := by
  refine ⟨by decide, by decide⟩

/-- Claim C6 (amended): for any unit id and any payloads pushed at t = 0,
100, 200 and 600 ms (and no others), exactly one externally visible
update is applied, at t = 1100 ms (600 + 500), and it reflects the
payload of the t = 600 push, because every gap between consecutive
pushes is below the 500 ms window and each push restarts the timer. -/
theorem debounce_burst_single_update (u : Nat)
    (c0 c1 c2 c3 : List ControlInfo) :
    runDebounce u
      [(0, { id := u, controls := c0 }), (100, { id := u, controls := c1 }),
       (200, { id := u, controls := c2 }), (600, { id := u, controls := c3 })]
      none = [(1100, { id := u, controls := c3 })] := by
  simp [runDebounce, onUnitChanged, UNITCHANGED_DELAY]

/-! ## Claim C7 -/

/-- Claim C7: the Kelvin value placed in the ColorTemperature control by
setColorTemperature for a mired set-request value m equals 1e6/m clamped
into the fixture bounds [minCCT, maxCCT] (and in particular lies in that
interval), and a received cct control with Kelvin value k writes the
mired value 1000000/k to the ColorTemperature characteristic. -/
theorem colorTemperature_clamp_and_mired (minCCT maxCCT m k a b : Rat)
    (st : AccessoryState) (hb : minCCT ≤ maxCCT) :
    (setColorTemperatureControls minCCT maxCCT m).colorTemperatureValue =
      some (clampedInto minCCT maxCCT (1000000 / m)) ∧
    minCCT ≤ clampedInto minCCT maxCCT (1000000 / m) ∧
    clampedInto minCCT maxCCT (1000000 / m) ≤ maxCCT ∧
    (updateCharacteristicsFromUnitChanged st
        [{ type := "cct", value := k, min := a, max := b }]).colorTemperatureChar =
      1000000 / k := by
  refine ⟨?_, (clampedInto_mem minCCT maxCCT (1000000 / m) hb).1,
    (clampedInto_mem minCCT maxCCT (1000000 / m) hb).2, ?_⟩
  · unfold setColorTemperatureControls
    rw [min_max_eq_clampedInto minCCT maxCCT (1000000 / m) hb]
  · simp [updateCharacteristicsFromUnitChanged, applyControlInfo]

/-- Witness for claim C7 at the default fixture bounds [2700, 4000], the
set-request mired value 250 (1e6/250 = 4000 → clamped result 4000) and a
received Kelvin value 2000 (mired 500). -/
theorem colorTemperature_clamp_and_mired_witness :
    (2700 : Rat) ≤ 4000 ∧
    ((setColorTemperatureControls 2700 4000 250).colorTemperatureValue =
      some (clampedInto 2700 4000 (1000000 / 250)) ∧
     (2700 : Rat) ≤ clampedInto 2700 4000 (1000000 / 250) ∧
     clampedInto 2700 4000 (1000000 / 250) ≤ 4000 ∧
     (updateCharacteristicsFromUnitChanged
        { onChar := false, brightnessChar := 0, brightness := 0,
          colorTemperatureChar := 0, verticalOnChar := false,
          verticalBrightnessChar := 0, minCCT := 2700, maxCCT := 4000,
          hasVerticalService := false }
        [{ type := "cct", value := 2000, min := 2700, max := 4000 }]).colorTemperatureChar =
      1000000 / 2000) :=
  ⟨by norm_num,
   colorTemperature_clamp_and_mired 2700 4000 250 2000 2700 4000
     { onChar := false, brightnessChar := 0, brightness := 0,
       colorTemperatureChar := 0, verticalOnChar := false,
       verticalBrightnessChar := 0, minCCT := 2700, maxCCT := 4000,
       hasVerticalService := false }
     (by norm_num)⟩

/-! ## Claim C8 -/

/-- Claim C8 counterexample: a decoded frame whose wire field equals the
session wire id but which is a wireStatus reply (no method field) is NOT
re-emitted as a unitChanged, peerChanged or networkUpdated event — it is
re-emitted as a wireStatus event — so the claimed biconditional (change
re-emission iff wire matches) fails in the if direction at this frame. -/
theorem session_filter_counterexample :
    emitsChangeEvent 5
      { wire := some 5, method := none, wireStatus := some "openWireSucceed" } = false ∧
    ({ wire := some 5, method := none, wireStatus := some "openWireSucceed" } :
      InMessage).wire = some 5 ∧
    sessionOnMessage 5
      { wire := some 5, method := none, wireStatus := some "openWireSucceed" } =
      [SessionEvent.wireStatus "openWireSucceed"] := by
  refine ⟨by decide, by decide, by decide⟩

/-- Claim C8 (amended): a Session re-emits a decoded frame as a
unitChanged, peerChanged or networkUpdated event iff the frame wire
field equals the session wire id AND its method is one of those three
names; consequently, for two Sessions holding distinct wire ids, a frame
tagged with one Session wire id produces no events at all in the other
Session. -/
theorem session_filter_iff (wireId : Nat) (m : InMessage)
    (wa wb : Nat) (m2 : InMessage) (hne : wa ≠ wb) (hm2 : m2.wire = some wb) :
    (emitsChangeEvent wireId m = true ↔
      (m.wire = some wireId ∧
        (m.method = some "unitChanged" ∨ m.method = some "peerChanged" ∨
         m.method = some "networkUpdated"))) ∧
    sessionOnMessage wa m2 = [] := by
  constructor
  · unfold emitsChangeEvent sessionOnMessage changeEventsOf
    by_cases hw : m.wire = some wireId
    · by_cases h1 : m.method = some "unitChanged"
      · simp [hw, h1]
      · by_cases h2 : m.method = some "peerChanged"
        · simp [hw, h1, h2]
        · by_cases h3 : m.method = some "networkUpdated"
          · simp [hw, h1, h2, h3]
          · cases hws : m.wireStatus with
            | none => simp [hw, h1, h2, h3, hws]
            | some s => simp [hw, h1, h2, h3, hws]
    · simp [hw]
  · unfold sessionOnMessage
    have : m2.wire ≠ some wa := by
      rw [hm2]
      intro hcontra
      exact hne (Option.some.inj hcontra).symm
    simp [this]

/-- Witness for claim C8 at a concrete unitChanged frame tagged with
wire 2, observed by a session holding wire 2 and by one holding wire 1. -/
theorem session_filter_iff_witness :
    ((1 : Nat) ≠ 2 ∧
     ({ wire := some 2, method := some "unitChanged", wireStatus := none } :
       InMessage).wire = some 2) ∧
    ((emitsChangeEvent 2
        { wire := some 2, method := some "unitChanged", wireStatus := none } = true ↔
      (({ wire := some 2, method := some "unitChanged", wireStatus := none } :
          InMessage).wire = some 2 ∧
        (({ wire := some 2, method := some "unitChanged", wireStatus := none } :
            InMessage).method = some "unitChanged" ∨
         ({ wire := some 2, method := some "unitChanged", wireStatus := none } :
            InMessage).method = some "peerChanged" ∨
         ({ wire := some 2, method := some "unitChanged", wireStatus := none } :
            InMessage).method = some "networkUpdated"))) ∧
     sessionOnMessage 1
       { wire := some 2, method := some "unitChanged", wireStatus := none } = []) :=
  ⟨⟨by decide, by decide⟩,
   session_filter_iff 2
     { wire := some 2, method := some "unitChanged", wireStatus := none }
     1 2 { wire := some 2, method := some "unitChanged", wireStatus := none }
     (by decide) (by decide)⟩

/-! ## Claim C9 -/

/-- Claim C9: for every call to LuminaireAccessory.sendControlUnit, the
HomeKit set-request callback is invoked at most once, whatever sequence
of settlement signals reaches the attached then/catch handlers
(including a path on which both fire): the called-flag guard forwards
exactly the first onceCallback invocation. -/
theorem controlUnit_callback_at_most_once (E : Type)
    (signals : List (PromiseSignal E)) :
    (onceCallbackRun false (handlerCalls signals)).length ≤ 1 ∧
    onceCallbackRun false (handlerCalls signals) = (handlerCalls signals).take 1 := by
  have h := (onceCallbackRun_take (handlerCalls signals)).1
  refine ⟨?_, h⟩
  rw [h, List.length_take]
  exact min_le_left 1 _

/-! ## Claim C10 -/

/-- Claim C10: applying a pushed Dimmer control with value 0 sets the On
characteristic to false and leaves both the Brightness characteristic
and the stored brightness field unchanged; the same holds for any
non-positive value, and both brightness fields are updated (to value*100,
with On set true) exactly when the pushed value is strictly positive. -/
theorem dimmer_zero_preserves_brightness (st : AccessoryState)
    (v mn mx : Rat) (hv : v ≤ 0) :
    (updateCharacteristicsFromUnitChanged st
        [{ type := "dimmer", value := 0, min := mn, max := mx }]).onChar = false ∧
    (updateCharacteristicsFromUnitChanged st
        [{ type := "dimmer", value := 0, min := mn, max := mx }]).brightnessChar =
      st.brightnessChar ∧
    (updateCharacteristicsFromUnitChanged st
        [{ type := "dimmer", value := 0, min := mn, max := mx }]).brightness =
      st.brightness ∧
    (updateCharacteristicsFromUnitChanged st
        [{ type := "dimmer", value := v, min := mn, max := mx }]).brightnessChar =
      st.brightnessChar ∧
    (updateCharacteristicsFromUnitChanged st
        [{ type := "dimmer", value := v, min := mn, max := mx }]).brightness =
      st.brightness ∧
    (∀ w : Rat, 0 < w →
      (updateCharacteristicsFromUnitChanged st
          [{ type := "dimmer", value := w, min := mn, max := mx }]).onChar = true ∧
      (updateCharacteristicsFromUnitChanged st
          [{ type := "dimmer", value := w, min := mn, max := mx }]).brightnessChar =
        w * 100 ∧
      (updateCharacteristicsFromUnitChanged st
          [{ type := "dimmer", value := w, min := mn, max := mx }]).brightness =
        w * 100) := by
  have hnv : ¬ (v * 100 > 0) := by nlinarith
  refine ⟨?_, ?_, ?_, ?_, ?_, ?_⟩
  · simp [updateCharacteristicsFromUnitChanged, applyControlInfo]
  · simp [updateCharacteristicsFromUnitChanged, applyControlInfo]
  · simp [updateCharacteristicsFromUnitChanged, applyControlInfo]
  · simp [updateCharacteristicsFromUnitChanged, applyControlInfo, hnv]
  · simp [updateCharacteristicsFromUnitChanged, applyControlInfo, hnv]
  · intro w hw
    have hpw : w * 100 > 0 := by nlinarith
    refine ⟨?_, ?_, ?_⟩
    · simp [updateCharacteristicsFromUnitChanged, applyControlInfo, hpw]
    · simp [updateCharacteristicsFromUnitChanged, applyControlInfo, hpw]
    · simp [updateCharacteristicsFromUnitChanged, applyControlInfo, hpw]

/-- Witness for claim C10 at a concrete accessory state holding
brightness 80 and a pushed Dimmer value 0. -/
theorem dimmer_zero_preserves_brightness_witness :
    ((0 : Rat) ≤ 0) ∧
    ((updateCharacteristicsFromUnitChanged
        { onChar := true, brightnessChar := 80, brightness := 80,
          colorTemperatureChar := 370, verticalOnChar := false,
          verticalBrightnessChar := 0, minCCT := 2700, maxCCT := 4000,
          hasVerticalService := false }
        [{ type := "dimmer", value := 0, min := 0, max := 0 }]).onChar = false ∧
     (updateCharacteristicsFromUnitChanged
        { onChar := true, brightnessChar := 80, brightness := 80,
          colorTemperatureChar := 370, verticalOnChar := false,
          verticalBrightnessChar := 0, minCCT := 2700, maxCCT := 4000,
          hasVerticalService := false }
        [{ type := "dimmer", value := 0, min := 0, max := 0 }]).brightnessChar = 80) :=
  ⟨le_refl 0,
   ⟨(dimmer_zero_preserves_brightness
      { onChar := true, brightnessChar := 80, brightness := 80,
        colorTemperatureChar := 370, verticalOnChar := false,
        verticalBrightnessChar := 0, minCCT := 2700, maxCCT := 4000,
        hasVerticalService := false }
      0 0 0 (le_refl 0)).1,
    (dimmer_zero_preserves_brightness
      { onChar := true, brightnessChar := 80, brightness := 80,
        colorTemperatureChar := 370, verticalOnChar := false,
        verticalBrightnessChar := 0, minCCT := 2700, maxCCT := 4000,
        hasVerticalService := false }
      0 0 0 (le_refl 0)).2.1⟩⟩
